import Mathlib

/-!
Shallow embedding of the reckshack screen-and-webcam recorder.

The repository is a browser recorder with two component variants:
* `src/app/page.tsx` (the main page, modelled below at top level), and
* `src/components/screen-recorder.tsx` (modelled in namespace `SR`);
  `src/unnamed/part_000` is an intermediate variant of the same component
  whose `combineVideos` guard and geometry agree with the parts modelled.

Browser effects (media streams, recorders, toasts, canvases, scheduled
animation-frame callbacks, Web Audio connections) are modelled as explicit
fields of a state record; nondeterministic browser outcomes (permission
grant, canvas-context availability, observed video element flags) are
parameters of the operations.  JavaScript numbers on the geometry path are
modelled as rationals.
-/

/-- The recorder lifecycle states of `page.tsx` line 41-43. -/
inductive RecState
  | idle
  | recording
  | paused
  | processing
deriving DecidableEq, Repr

/-- The selected video quality, `page.tsx` lines 28-38. -/
inductive VideoQuality
  | q480
  | q720
  | q1080
  | q1440
  | q2160
deriving DecidableEq, Repr

/-- Canvas width of each quality, `videoQualities` in `page.tsx` lines 30-38. -/
def VideoQuality.width : VideoQuality → ℚ
  | VideoQuality.q480 => 854
  | VideoQuality.q720 => 1280
  | VideoQuality.q1080 => 1920
  | VideoQuality.q1440 => 2560
  | VideoQuality.q2160 => 3840

/-- Canvas height of each quality, `videoQualities` in `page.tsx` lines 30-38. -/
def VideoQuality.height : VideoQuality → ℚ
  | VideoQuality.q480 => 480
  | VideoQuality.q720 => 720
  | VideoQuality.q1080 => 1080
  | VideoQuality.q1440 => 1440
  | VideoQuality.q2160 => 2160

/-- Kind of a callback handed to `requestAnimationFrame`: the voice-detection
`checkAudio` callback of `detectVoice` (page.tsx line 290) or the redraw
`drawFrame` callback of the compositing loop (page.tsx line 212). -/
inductive CBKind
  | voiceCheck
  | redraw
deriving DecidableEq, Repr

/-- User-facing toast notifications emitted by `page.tsx`. -/
inductive Toast
  | permissionsGranted
  | permissionDenied
  | recordingStopped
deriving DecidableEq, Repr

/-- An audio source connected into the Web Audio destination in
`combineVideos` (page.tsx lines 222-229). -/
inductive AudioSrc
  | screen
  | webcam
deriving DecidableEq, Repr

/-- A binary blob, as a list of bytes. -/
structure Blob where
  data : List Nat
deriving DecidableEq, Repr

/-- `new Blob(chunks, ...)`: concatenation of the accumulated chunks. -/
def Blob.concat (chunks : List Blob) : Blob :=
  ⟨(chunks.map Blob.data).flatten⟩

/-- The webcam overlay rectangle computed by `combineVideos`
(page.tsx lines 186-190). -/
structure Geometry where
  webcamWidth : ℚ
  webcamHeight : ℚ
  webcamX : ℚ
  webcamY : ℚ
deriving DecidableEq, Repr

/-- The overlay geometry of `combineVideos`, page.tsx lines 186-190:
`webcamWidth = (webcamSize / 100) * width`,
`webcamHeight = (webcamWidth / videoWidth) * videoHeight`,
`webcamX = (posX / 100) * (width - webcamWidth)`,
`webcamY = (posY / 100) * (height - webcamHeight)`. -/
def overlayGeometry (width height webcamSize posX posY videoWidth videoHeight : ℚ) :
    Geometry :=
  let webcamWidth := webcamSize / 100 * width
  let webcamHeight := webcamWidth / videoWidth * videoHeight
  let webcamX := posX / 100 * (width - webcamWidth)
  let webcamY := posY / 100 * (height - webcamHeight)
  ⟨webcamWidth, webcamHeight, webcamX, webcamY⟩

/-- The overlay geometry exactly as the specification words it: the webcam
width is the size percentage of the canvas width, the webcam height is the
webcam width scaled by the video's height-to-width aspect, and the position
percentages map linearly into the leftover pixel ranges. -/
def overlayGeometrySpec (width height webcamSize posX posY videoWidth videoHeight : ℚ) :
    Geometry :=
  let webcamWidth := webcamSize / 100 * width
  let webcamHeight := webcamWidth * (videoHeight / videoWidth)
  let webcamX := posX / 100 * (width - webcamWidth)
  let webcamY := posY / 100 * (height - webcamHeight)
  ⟨webcamWidth, webcamHeight, webcamX, webcamY⟩

/-- Component state of the main page (`page.tsx` `Component`).  Streams are
modelled as lists of per-track stopped flags, recorder refs as booleans,
`pending` is the set of not-yet-fired animation-frame callbacks scheduled via
`requestAnimationFrame`, and `canvasesCreated` / `recordersStarted` count the
corresponding browser effects. -/
structure AppState where
  recordingState : RecState
  combinedRecordingUrl : Option Blob
  videoQuality : VideoQuality
  webcamPosX : ℚ
  webcamPosY : ℚ
  webcamSize : ℚ
  webcamBorderRadius : ℚ
  showPreview : Bool
  isVoiceDetected : Bool
  screenStream : Option (List Bool)
  webcamStream : Option (List Bool)
  screenRecorderSet : Bool
  webcamRecorderSet : Bool
  audioAnalyserSet : Bool
  animationFrameRef : Option Nat
  pending : List (Nat × CBKind)
  toasts : List Toast
  canvasesCreated : Nat
  recordersStarted : Nat
  audioSources : List AudioSrc
  overlay : Option Geometry
deriving DecidableEq, Repr

/-- The `useState` defaults of `page.tsx` lines 41-52. -/
def initState : AppState where
  recordingState := RecState.idle
  combinedRecordingUrl := none
  videoQuality := VideoQuality.q1080
  webcamPosX := 5
  webcamPosY := 80
  webcamSize := 17
  webcamBorderRadius := 25
  showPreview := false
  isVoiceDetected := false
  screenStream := none
  webcamStream := none
  screenRecorderSet := false
  webcamRecorderSet := false
  audioAnalyserSet := false
  animationFrameRef := none
  pending := []
  toasts := []
  canvasesCreated := 0
  recordersStarted := 0
  audioSources := []
  overlay := none

/-- `requestPermissions` (page.tsx lines 63-106).  `granted` is the browser's
outcome of the two capture calls; the stream refs are assigned only after
both calls succeed, so the failure path changes nothing except emitting the
permission-denied toast. -/
def requestPermissions (granted : Bool) (sTracks wTracks : List Bool)
    (s : AppState) : AppState × Bool :=
  if granted then
    ({ s with
        screenStream := some sTracks
        webcamStream := some wTracks
        audioAnalyserSet := true
        toasts := s.toasts ++ [Toast.permissionsGranted] }, true)
  else
    ({ s with toasts := s.toasts ++ [Toast.permissionDenied] }, false)

/-- One invocation of `detectVoice` / `checkAudio` (page.tsx lines 278-294):
returns at once when no analyser is set, otherwise updates the voice flag and
schedules the next `checkAudio` frame, storing its id in `animationFrameRef`. -/
def detectVoice (voice : Bool) (rafId : Nat) (s : AppState) : AppState :=
  if s.audioAnalyserSet then
    { s with
        isVoiceDetected := voice
        animationFrameRef := some rafId
        pending := s.pending ++ [(rafId, CBKind.voiceCheck)] }
  else s

/-- `startRecording` (page.tsx lines 108-141): request permissions, bail out
when denied, otherwise construct and start both recorders, set the state to
recording and start voice detection. -/
def startRecording (granted : Bool) (sTracks wTracks : List Bool)
    (voice : Bool) (rafId : Nat) (s : AppState) : AppState :=
  let pr := requestPermissions granted sTracks wTracks s
  if pr.2 = false then pr.1
  else
    let s2 := { pr.1 with
        screenRecorderSet := true
        webcamRecorderSet := true
        recordersStarted := pr.1.recordersStarted + 2
        recordingState := RecState.recording }
    detectVoice voice rafId s2

/-- `pauseRecording` (page.tsx lines 143-149). -/
def pauseRecording (s : AppState) : AppState :=
  if s.screenRecorderSet && s.webcamRecorderSet then
    { s with recordingState := RecState.paused }
  else s

/-- `resumeRecording` (page.tsx lines 151-157). -/
def resumeRecording (s : AppState) : AppState :=
  if s.screenRecorderSet && s.webcamRecorderSet then
    { s with recordingState := RecState.recording }
  else s

/-- `stream.getTracks().forEach(track => track.stop())` on an optional stream. -/
def stopTracks : Option (List Bool) → Option (List Bool)
  | none => none
  | some ts => some (ts.map fun _ => true)

/-- `if (animationFrameRef.current) cancelAnimationFrame(...)`: unschedules
the pending callback whose id is stored in the ref, nothing else. -/
def cancelStoredFrame (s : AppState) : AppState :=
  match s.animationFrameRef with
  | none => s
  | some i => { s with pending := s.pending.filter fun c => c.1 ≠ i }

/-- `stopRecording` (page.tsx lines 254-276): guarded on both recorder refs;
stops both recorders (their `onstop` fires later), stops every track of both
streams, cancels the stored animation frame and toasts.  It does not change
`recordingState`. -/
def stopRecording (s : AppState) : AppState :=
  if s.screenRecorderSet && s.webcamRecorderSet then
    let s1 := { s with
        screenStream := stopTracks s.screenStream
        webcamStream := stopTracks s.webcamStream }
    let s2 := cancelStoredFrame s1
    { s2 with toasts := s2.toasts ++ [Toast.recordingStopped] }
  else s

/-- The unmount cleanup of the `useEffect` at page.tsx lines 296-308: stop
every track of both streams and cancel the animation frame stored in
`animationFrameRef`. -/
def cleanup (s : AppState) : AppState :=
  cancelStoredFrame
    { s with
        screenStream := stopTracks s.screenStream
        webcamStream := stopTracks s.webcamStream }

/-- The synchronous body of `combineVideos` (page.tsx lines 159-252).
`ctxOk` is whether `canvas.getContext` succeeds, `videoWidth`/`videoHeight`
are the webcam element's intrinsic dimensions, and `firstFrameContinues`
tells whether the first synchronous `drawFrame` call observed the screen
video still playing (scheduling a redraw frame whose id is never stored).
The function first sets the state to processing, creates the canvas, and on
context failure returns right there; otherwise it computes the overlay
geometry, starts the combined recorder, runs the first draw iteration,
connects the two audio sources to the destination and starts the final
recorder. -/
def combineVideos (ctxOk : Bool) (videoWidth videoHeight : ℚ)
    (firstFrameContinues : Bool) (rafId : Nat) (s : AppState) : AppState :=
  let s0 := { s with recordingState := RecState.processing }
  let s1 := { s0 with canvasesCreated := s0.canvasesCreated + 1 }
  if ctxOk = false then s1
  else
    let w := s.videoQuality.width
    let h := s.videoQuality.height
    let g := overlayGeometry w h s.webcamSize s.webcamPosX s.webcamPosY
      videoWidth videoHeight
    let s2 := { s1 with
        overlay := some g
        recordersStarted := s1.recordersStarted + 1 }
    let s3 := if firstFrameContinues then
        { s2 with pending := s2.pending ++ [(rafId, CBKind.redraw)] }
      else s2
    let s4 := { s3 with audioSources := [AudioSrc.screen, AudioSrc.webcam] }
    { s4 with recordersStarted := s4.recordersStarted + 1 }

/-- `finalRecorder.onstop` (page.tsx lines 242-246): build the final blob
from the accumulated chunks, expose its URL and return to idle. -/
def finalOnStop (finalChunks : List Blob) (s : AppState) : AppState :=
  { s with
      combinedRecordingUrl := some (Blob.concat finalChunks)
      recordingState := RecState.idle }

/-- The initial `combinedRecorder.onstop` handler (page.tsx lines 199-203):
build the combined blob from the accumulated chunks, expose its URL and
return to idle. -/
def combinedOnStopInitial (combinedChunks : List Blob) (s : AppState) : AppState :=
  { s with
      combinedRecordingUrl := some (Blob.concat combinedChunks)
      recordingState := RecState.idle }

/-- The reassigned `combinedRecorder.onstop` handler (page.tsx line 249):
stop the final recorder, whose own `onstop` handler then runs. -/
def combinedOnStopFinal (finalChunks : List Blob) (s : AppState) : AppState :=
  finalOnStop finalChunks s

/-- The flags of the screen video element observed by one iteration of the
`drawFrame` loop (page.tsx line 211). -/
structure VideoState where
  paused : Bool
  ended : Bool
deriving DecidableEq, Repr

/-- The loop stops after the iteration at which the screen video is paused
or ended (page.tsx lines 211-215). -/
def VideoState.stops (v : VideoState) : Bool := v.paused || v.ended

/-- A canvas draw call `ctx.drawImage(source, x, y, w, h)`. -/
inductive DrawOp
  | drawScreen (x y w h : ℚ)
  | drawWebcam (x y w h : ℚ)
deriving DecidableEq, Repr

/-- The `drawFrame` loop of `combineVideos` (page.tsx lines 207-216), run
over the successive observations of the screen video's flags: each iteration
draws the screen frame over the full canvas and then the webcam frame at the
overlay rectangle; it schedules another frame while the video is neither
paused nor ended and otherwise stops the combined recorder (the boolean
result).  An exhausted observation list means the loop is still pending. -/
def drawFrame (width height : ℚ) (g : Geometry) :
    List VideoState → List DrawOp × Bool
  | [] => ([], false)
  | v :: rest =>
    let ops := [DrawOp.drawScreen 0 0 width height,
                DrawOp.drawWebcam g.webcamX g.webcamY g.webcamWidth g.webcamHeight]
    if v.stops then (ops, true)
    else
      let r := drawFrame width height g rest
      (ops ++ r.1, r.2)

/-- Number of iterations the `drawFrame` loop performs on a list of
observations: it scans to the first stopping observation inclusively. -/
def iterCount : List VideoState → Nat
  | [] => 0
  | v :: rest => if v.stops then 1 else iterCount rest + 1

namespace SR

/-- The recorder lifecycle states of `screen-recorder.tsx` lines 10-12. -/
inductive RState
  | idle
  | recording
  | paused
deriving DecidableEq, Repr

/-- Component state of `screen-recorder.tsx` `ScreenRecorder`, restricted to
the fields its `combineVideos` reads or writes, together with effect
counters for canvas creation and recorder starts. -/
structure State where
  recordingState : RState
  screenRecordingUrl : Option Blob
  webcamRecordingUrl : Option Blob
  combinedRecordingUrl : Option Blob
  canvasesCreated : Nat
  recordersStarted : Nat
deriving DecidableEq, Repr

/-- `combineVideos` of `screen-recorder.tsx` lines 114-171: return at once
unless both recording URLs exist; otherwise create the canvas, return on
context failure, and otherwise start the combined recorder and enter the
corner-overlay draw loop (whose per-frame trace is the page-level
`drawFrame`). -/
def combineVideos (ctxOk : Bool) (s : State) : State :=
  match s.screenRecordingUrl, s.webcamRecordingUrl with
  | some _, some _ =>
    let s1 := { s with canvasesCreated := s.canvasesCreated + 1 }
    if ctxOk = false then s1
    else { s1 with recordersStarted := s1.recordersStarted + 1 }
  | _, _ => s

end SR

/-- The arcs of the cycle idle → recording → paused → processing → idle
named by the specification. -/
def cycleArcB : RecState → RecState → Bool
  | RecState.idle, RecState.recording => true
  | RecState.recording, RecState.paused => true
  | RecState.paused, RecState.processing => true
  | RecState.processing, RecState.idle => true
  | _, _ => false

/-- The arcs the code actually takes: the cycle arcs together with
paused → recording (resume) and recording → processing (stop while
recording, which triggers combining). -/
def extendedArcB (a b : RecState) : Bool :=
  cycleArcB a b ||
    match a, b with
    | RecState.paused, RecState.recording => true
    | RecState.recording, RecState.processing => true
    | _, _ => false

/-- One user-driven or recorder-callback transition of the main page.  The
hypotheses on the pre-state record when the code can run each operation:
the start button is rendered only in the idle state, pause only while
recording, resume only while paused (page.tsx lines 432-444); the stop
button is enabled only while recording or paused (lines 445-453), and
`combineVideos` runs from the screen recorder's `onstop` fired by
`stopRecording`; the combined/final recorder `onstop` handlers fire only
after `combineVideos` has set the state to processing. -/
inductive Step : AppState → AppState → Prop
  | start (granted : Bool) (sTracks wTracks : List Bool) (voice : Bool)
      (rafId : Nat) (s : AppState) :
      s.recordingState = RecState.idle →
      Step s (startRecording granted sTracks wTracks voice rafId s)
  | pause (s : AppState) :
      s.recordingState = RecState.recording →
      Step s (pauseRecording s)
  | resume (s : AppState) :
      s.recordingState = RecState.paused →
      Step s (resumeRecording s)
  | stop (s : AppState) :
      s.recordingState = RecState.recording ∨ s.recordingState = RecState.paused →
      Step s (stopRecording s)
  | combine (ctxOk : Bool) (videoWidth videoHeight : ℚ)
      (firstFrameContinues : Bool) (rafId : Nat) (s : AppState) :
      s.recordingState = RecState.recording ∨ s.recordingState = RecState.paused →
      Step s (combineVideos ctxOk videoWidth videoHeight firstFrameContinues rafId s)
  | finishInitial (combinedChunks : List Blob) (s : AppState) :
      s.recordingState = RecState.processing →
      Step s (combinedOnStopInitial combinedChunks s)
  | finishFinal (finalChunks : List Blob) (s : AppState) :
      s.recordingState = RecState.processing →
      Step s (combinedOnStopFinal finalChunks s)

theorem detectVoice_recordingState (voice : Bool) (rafId : Nat) (s : AppState) :
    (detectVoice voice rafId s).recordingState = s.recordingState := by
  unfold detectVoice
  split <;> rfl

theorem startRecording_granted_recordingState (sTracks wTracks : List Bool)
    (voice : Bool) (rafId : Nat) (s : AppState) :
    (startRecording true sTracks wTracks voice rafId s).recordingState
      = RecState.recording := by
  unfold startRecording requestPermissions
  simp [detectVoice_recordingState]

theorem startRecording_denied_recordingState (sTracks wTracks : List Bool)
    (voice : Bool) (rafId : Nat) (s : AppState) :
    (startRecording false sTracks wTracks voice rafId s).recordingState
      = s.recordingState := rfl

theorem cancelStoredFrame_recordingState (s : AppState) :
    (cancelStoredFrame s).recordingState = s.recordingState := by
  unfold cancelStoredFrame
  split <;> rfl

theorem stopRecording_recordingState (s : AppState) :
    (stopRecording s).recordingState = s.recordingState := by
  unfold stopRecording
  split
  · exact cancelStoredFrame_recordingState _
  · rfl

theorem combineVideos_recordingState (ctxOk : Bool) (videoWidth videoHeight : ℚ)
    (firstFrameContinues : Bool) (rafId : Nat) (s : AppState) :
    (combineVideos ctxOk videoWidth videoHeight firstFrameContinues rafId s).recordingState
      = RecState.processing := by
  unfold combineVideos
  split
  · rfl
  · split <;> rfl

/-- Claim C1 fails as stated: from the reachable paused state (start, then
pause), `resumeRecording` takes the transition paused → recording, which is
not an arc of the cycle idle → recording → paused → processing → idle. -/
theorem C1_cycle_counterexample :
    Step (pauseRecording (startRecording true [false] [false] false 1 initState))
      (resumeRecording (pauseRecording (startRecording true [false] [false] false 1 initState))) ∧
    (pauseRecording (startRecording true [false] [false] false 1 initState)).recordingState
      = RecState.paused ∧
    (resumeRecording (pauseRecording
        (startRecording true [false] [false] false 1 initState))).recordingState
      = RecState.recording ∧
    cycleArcB RecState.paused RecState.recording = false :=
  ⟨Step.resume _ (by decide), by decide, by decide, by decide⟩

/-- Claim C1 (amended): the recorder state variable only ever holds idle,
recording, paused or processing (its type), and every state-changing
transition taken by the operations — start, pause, resume, stop, combine and
the recorder stop callbacks — is an arc of the graph consisting of the cycle
idle → recording → paused → processing → idle together with the two further
arcs paused → recording (resume) and recording → processing (stopping while
recording, which triggers combining). -/
theorem C1_transitions (s t : AppState) (hstep : Step s t)
    (hne : s.recordingState ≠ t.recordingState) :
    extendedArcB s.recordingState t.recordingState = true := by
  cases hstep with
  | start granted sTracks wTracks voice rafId s hg =>
    cases granted with
    | false =>
      exact absurd (startRecording_denied_recordingState sTracks wTracks voice rafId s).symm hne
    | true =>
      rw [hg, startRecording_granted_recordingState]
      rfl
  | pause s hg =>
    have hc : (pauseRecording s).recordingState = RecState.paused ∨ pauseRecording s = s := by
      unfold pauseRecording
      split
      · exact Or.inl rfl
      · exact Or.inr rfl
    rcases hc with hc | hc
    · rw [hg, hc]
      rfl
    · rw [hc] at hne
      exact absurd rfl hne
  | resume s hg =>
    have hc : (resumeRecording s).recordingState = RecState.recording ∨ resumeRecording s = s := by
      unfold resumeRecording
      split
      · exact Or.inl rfl
      · exact Or.inr rfl
    rcases hc with hc | hc
    · rw [hg, hc]
      rfl
    · rw [hc] at hne
      exact absurd rfl hne
  | stop s hg =>
    exact absurd (stopRecording_recordingState s).symm hne
  | combine ctxOk videoWidth videoHeight firstFrameContinues rafId s hg =>
    rw [combineVideos_recordingState]
    rcases hg with hg | hg <;> rw [hg] <;> rfl
  | finishInitial combinedChunks s hg =>
    rw [hg]
    rfl
  | finishFinal finalChunks s hg =>
    rw [hg]
    rfl

/-- Witness for C1: the pause transition from the reachable recording state
is an arc of the amended graph. -/
theorem C1_transitions_witness :
    extendedArcB (startRecording true [false] [false] false 1 initState).recordingState
      (pauseRecording (startRecording true [false] [false] false 1 initState)).recordingState
      = true :=
  C1_transitions _ _ (Step.pause _ (by decide)) (by decide)

/-- Claim C2: for every canvas width and height, size percentage in
[10, 50] and position percentages in [0, 100], the overlay geometry computed
by `combineVideos` is the linear map of the specification — width is the
size percentage of the canvas width, height is the width scaled by the
webcam video's height-to-width aspect, and the positions map linearly into
the leftover ranges; moreover `combineVideos` stores exactly this geometry. -/
theorem C2_overlay_linear_map (w h sz x y vw vh : ℚ) (st : AppState)
    (ffc : Bool) (rafId : Nat)
    (hs1 : 10 ≤ sz) (hs2 : sz ≤ 50)
    (hx1 : 0 ≤ x) (hx2 : x ≤ 100) (hy1 : 0 ≤ y) (hy2 : y ≤ 100) :
    overlayGeometry w h sz x y vw vh = overlayGeometrySpec w h sz x y vw vh ∧
    (combineVideos true vw vh ffc rafId st).overlay =
      some (overlayGeometry st.videoQuality.width st.videoQuality.height
        st.webcamSize st.webcamPosX st.webcamPosY vw vh) := by
  constructor
  · simp only [overlayGeometry, overlayGeometrySpec, Geometry.mk.injEq]
    refine ⟨trivial, by ring, trivial, by ring⟩
  · cases ffc <;> rfl

/-- Witness for C2 at the default settings, a 1080p canvas and a 640 × 480
webcam video. -/
theorem C2_overlay_linear_map_witness :
    overlayGeometry 1920 1080 17 5 80 640 480
      = overlayGeometrySpec 1920 1080 17 5 80 640 480 ∧
    (combineVideos true 640 480 false 1 initState).overlay =
      some (overlayGeometry 1920 1080 17 5 80 640 480) :=
  C2_overlay_linear_map 1920 1080 17 5 80 640 480 initState false 1
    (by norm_num) (by norm_num) (by norm_num) (by norm_num) (by norm_num) (by norm_num)

/-- Claim C3: each iteration of the compositing loop first draws the screen
frame over the full canvas and then the webcam frame at the overlay
rectangle on top of it; the loop schedules another frame exactly while the
screen video is neither paused nor ended, and it requests the combined
recorder's stop exactly when that condition first fails; the stop handler —
in both its initial and its reassigned final-recorder form — exposes the
blob concatenated from the accumulated chunks as the combined recording URL
and returns the state to idle. -/
theorem C3_draw_loop (width height : ℚ) (g : Geometry) (vs : List VideoState) :
    (drawFrame width height g vs).1 =
      (List.replicate (iterCount vs)
        [DrawOp.drawScreen 0 0 width height,
         DrawOp.drawWebcam g.webcamX g.webcamY g.webcamWidth g.webcamHeight]).flatten ∧
    ((drawFrame width height g vs).2 = true ↔ ∃ v ∈ vs, v.stops = true) ∧
    (∀ (chunks : List Blob) (s : AppState),
      (combinedOnStopInitial chunks s).combinedRecordingUrl = some (Blob.concat chunks) ∧
      (combinedOnStopInitial chunks s).recordingState = RecState.idle ∧
      (combinedOnStopFinal chunks s).combinedRecordingUrl = some (Blob.concat chunks) ∧
      (combinedOnStopFinal chunks s).recordingState = RecState.idle) := by
  refine ⟨?_, ?_, fun chunks s => ⟨rfl, rfl, rfl, rfl⟩⟩
  · induction vs with
    | nil => rfl
    | cons v rest ih =>
      by_cases hv : v.stops = true
      · simp [drawFrame, iterCount, hv]
      · simp [drawFrame, iterCount, hv, ih, List.replicate_succ]
  · induction vs with
    | nil => simp [drawFrame]
    | cons v rest ih =>
      by_cases hv : v.stops = true
      · simp [drawFrame, hv]
      · simp [drawFrame, hv, ih]

/-- Claim C4: when the screen recording or the webcam recording is missing,
`combineVideos` of the screen-recorder component returns immediately,
creating no canvas, starting no recorder and changing no state at all. -/
theorem C4_combine_requires_both_recordings (ctxOk : Bool) (s : SR.State)
    (hmissing : s.screenRecordingUrl = none ∨ s.webcamRecordingUrl = none) :
    SR.combineVideos ctxOk s = s := by
  rcases hmissing with hm | hm <;>
    rcases hs : s.screenRecordingUrl with _ | a <;>
    rcases hw : s.webcamRecordingUrl with _ | b <;>
    simp_all [SR.combineVideos]

/-- Witness for C4: combining in the initial component state, where neither
recording URL exists, changes nothing. -/
theorem C4_combine_requires_both_recordings_witness :
    SR.combineVideos true ⟨SR.RState.idle, none, none, none, 0, 0⟩
      = ⟨SR.RState.idle, none, none, none, 0, 0⟩ :=
  C4_combine_requires_both_recordings true _ (Or.inl rfl)

/-- Claim C5: when `requestPermissions` reports denial, `startRecording`
returns without constructing or starting any recorder and without changing
the recording state, which stays idle. -/
theorem C5_denied_permissions_no_recording (sTracks wTracks : List Bool)
    (voice : Bool) (rafId : Nat) (s : AppState)
    (hidle : s.recordingState = RecState.idle) :
    (startRecording false sTracks wTracks voice rafId s).recordingState
      = RecState.idle ∧
    (startRecording false sTracks wTracks voice rafId s).screenRecorderSet
      = s.screenRecorderSet ∧
    (startRecording false sTracks wTracks voice rafId s).webcamRecorderSet
      = s.webcamRecorderSet ∧
    (startRecording false sTracks wTracks voice rafId s).recordersStarted
      = s.recordersStarted :=
  ⟨hidle, rfl, rfl, rfl⟩

/-- Witness for C5 at the initial state. -/
theorem C5_denied_permissions_no_recording_witness :
    (startRecording false [] [] false 0 initState).recordingState = RecState.idle ∧
    (startRecording false [] [] false 0 initState).screenRecorderSet
      = initState.screenRecorderSet ∧
    (startRecording false [] [] false 0 initState).webcamRecorderSet
      = initState.webcamRecorderSet ∧
    (startRecording false [] [] false 0 initState).recordersStarted
      = initState.recordersStarted :=
  C5_denied_permissions_no_recording [] [] false 0 initState rfl

/-- Claim C6 fails as stated: the canvas-context failure path of the main
page's `combineVideos` does not leave the rest of the state as it was — the
recording state has already been set to processing before the context check
and is never restored.  The input is the reachable state in which recording
was started and then stopped. -/
theorem C6_counterexample :
    (combineVideos false 640 480 false 7
        (stopRecording (startRecording true [false] [false] false 1 initState))).recordingState
      ≠ (stopRecording (startRecording true [false] [false] false 1
          initState)).recordingState := by
  decide

/-- Claim C6 (amended): permission denial is the only failure on which the
program notifies the user — the denial path appends exactly the
permission-denied toast and changes nothing else, and the canvas-context
failure path emits no notification; neither failure path retries or
recovers, but the context failure path returns only after having set the
recording state to processing and created the canvas, and those changes
persist. -/
theorem C6_failure_paths (sTracks wTracks : List Bool) (vw vh : ℚ)
    (ffc : Bool) (rafId : Nat) (s : AppState) :
    requestPermissions false sTracks wTracks s =
      ({ s with toasts := s.toasts ++ [Toast.permissionDenied] }, false) ∧
    combineVideos false vw vh ffc rafId s =
      { s with
          recordingState := RecState.processing
          canvasesCreated := s.canvasesCreated + 1 } :=
  ⟨rfl, rfl⟩

/-- Claim C7 fails as stated: the teardown cleanup cancels only the
animation-frame id stored in `animationFrameRef`, which only ever holds the
voice-detection callback's id; the id of a redraw frame scheduled by the
compositing loop (page.tsx line 212) is never stored anywhere, so a pending
redraw callback survives the cleanup.  The input is the reachable state:
start, stop, combine with the screen video still playing, then unmount. -/
theorem C7_counterexample :
    ¬ (∀ c ∈ (cleanup (combineVideos true 640 480 true 7
          (stopRecording (startRecording true [false] [false] false 1
            initState)))).pending,
        c.2 ≠ CBKind.redraw) := by
  decide

/-- Claim C7 (amended): on teardown every track of both captured streams is
stopped and the pending animation-frame callback whose id is stored in
`animationFrameRef` — the voice-detection callback — is canceled; the
cleanup performs no other cancellation or scheduling action and changes no
other state, and in particular redraw callbacks of the compositing loop,
whose ids are never stored in the ref, are not canceled. -/
theorem C7_cleanup_effects (s : AppState) :
    (∀ ts, (cleanup s).screenStream = some ts → ∀ t ∈ ts, t = true) ∧
    (∀ ts, (cleanup s).webcamStream = some ts → ∀ t ∈ ts, t = true) ∧
    (cleanup s).pending =
      (match s.animationFrameRef with
        | none => s.pending
        | some i => s.pending.filter fun c => c.1 ≠ i) ∧
    (cleanup s).animationFrameRef = s.animationFrameRef ∧
    (cleanup s).recordingState = s.recordingState ∧
    (cleanup s).toasts = s.toasts ∧
    (cleanup s).recordersStarted = s.recordersStarted ∧
    (cleanup s).canvasesCreated = s.canvasesCreated ∧
    (cleanup s).combinedRecordingUrl = s.combinedRecordingUrl := by
  obtain ⟨rs, url, vq, px, py, wsz, br, sp, ivd, ss, ws, srs, wrs, aas, ref,
    pend, tst, cc, rst, aud, ov⟩ := s
  cases ref <;> cases ss <;> cases ws <;>
    simp [cleanup, cancelStoredFrame, stopTracks]

/-- Witness for C7 (amended) at the post-combine state: the surviving
pending callback set is exactly the stored-ref filter of the previous one. -/
theorem C7_cleanup_effects_witness :
    (cleanup (combineVideos true 640 480 true 7
        (stopRecording (startRecording true [false] [false] false 1
          initState)))).pending =
      (match (combineVideos true 640 480 true 7
          (stopRecording (startRecording true [false] [false] false 1
            initState))).animationFrameRef with
        | none => (combineVideos true 640 480 true 7
            (stopRecording (startRecording true [false] [false] false 1
              initState))).pending
        | some i => (combineVideos true 640 480 true 7
            (stopRecording (startRecording true [false] [false] false 1
              initState))).pending.filter fun c => c.1 ≠ i) :=
  (C7_cleanup_effects _).2.2.1

/-- Claim C8 fails as stated: on a run of the combining step that reaches
the audio section, two audio sources — not at most one — are connected into
the destination that feeds the final recording's audio track. -/
theorem C8_counterexample :
    ¬ ((combineVideos true 640 480 true 9
          (stopRecording (startRecording true [false] [false] false 1
            initState))).audioSources.length ≤ 1) := by
  decide

/-- Claim C8 (amended): the combining step mixes exactly two audio sources
into the final recording's audio track — the screen recording's audio and
the webcam recording's audio, connected to the shared destination — and no
others. -/
theorem C8_two_audio_sources (vw vh : ℚ) (ffc : Bool) (rafId : Nat)
    (s : AppState) :
    (combineVideos true vw vh ffc rafId s).audioSources
      = [AudioSrc.screen, AudioSrc.webcam] := by
  cases ffc <;> rfl

/-- Claim C9: for a nonnegative canvas and webcam video, a size percentage
in [10, 50] and position percentages in [0, 100], if the computed overlay
height fits the canvas height then the overlay rectangle lies entirely
within the canvas. -/
theorem C9_overlay_in_bounds (w h sz x y vw vh : ℚ)
    (hw : 0 ≤ w) (hvw : 0 ≤ vw) (hvh : 0 ≤ vh)
    (hs1 : 10 ≤ sz) (hs2 : sz ≤ 50)
    (hx1 : 0 ≤ x) (hx2 : x ≤ 100) (hy1 : 0 ≤ y) (hy2 : y ≤ 100)
    (hfits : (overlayGeometry w h sz x y vw vh).webcamHeight ≤ h) :
    0 ≤ (overlayGeometry w h sz x y vw vh).webcamX ∧
    (overlayGeometry w h sz x y vw vh).webcamX
      + (overlayGeometry w h sz x y vw vh).webcamWidth ≤ w ∧
    0 ≤ (overlayGeometry w h sz x y vw vh).webcamY ∧
    (overlayGeometry w h sz x y vw vh).webcamY
      + (overlayGeometry w h sz x y vw vh).webcamHeight ≤ h := by
  simp only [overlayGeometry] at hfits ⊢
  have hsz0 : (0 : ℚ) ≤ sz := by linarith
  have hs100 : (0 : ℚ) ≤ sz / 100 := by positivity
  have hle1 : sz / 100 ≤ 1 := by linarith
  have hwwnn : 0 ≤ sz / 100 * w := mul_nonneg hs100 hw
  have hwwle : sz / 100 * w ≤ w := mul_le_of_le_one_left hw hle1
  have hslack : 0 ≤ w - sz / 100 * w := by linarith
  have hwhnn : 0 ≤ sz / 100 * w / vw * vh :=
    mul_nonneg (div_nonneg hwwnn hvw) hvh
  have hslackh : 0 ≤ h - sz / 100 * w / vw * vh := by linarith
  refine ⟨?_, ?_, ?_, ?_⟩
  · exact mul_nonneg (by positivity) hslack
  · have hxle : x / 100 * (w - sz / 100 * w) ≤ 1 * (w - sz / 100 * w) :=
      mul_le_mul_of_nonneg_right (by linarith) hslack
    linarith
  · exact mul_nonneg (by positivity) hslackh
  · have hyle : y / 100 * (h - sz / 100 * w / vw * vh)
        ≤ 1 * (h - sz / 100 * w / vw * vh) :=
      mul_le_mul_of_nonneg_right (by linarith) hslackh
    linarith

/-- Witness for C9 at the default settings, a 1080p canvas and a 640 × 480
webcam video. -/
theorem C9_overlay_in_bounds_witness :
    0 ≤ (overlayGeometry 1920 1080 17 5 80 640 480).webcamX ∧
    (overlayGeometry 1920 1080 17 5 80 640 480).webcamX
      + (overlayGeometry 1920 1080 17 5 80 640 480).webcamWidth ≤ 1920 ∧
    0 ≤ (overlayGeometry 1920 1080 17 5 80 640 480).webcamY ∧
    (overlayGeometry 1920 1080 17 5 80 640 480).webcamY
      + (overlayGeometry 1920 1080 17 5 80 640 480).webcamHeight ≤ 1080 :=
  C9_overlay_in_bounds 1920 1080 17 5 80 640 480
    (by norm_num) (by norm_num) (by norm_num) (by norm_num) (by norm_num)
    (by norm_num) (by norm_num) (by norm_num) (by norm_num)
    (by norm_num [overlayGeometry])

/-- Claim C10: when no recording has been started — the screen recorder ref
or the webcam recorder ref is null — pause, resume and stop are each a
no-op: they leave the recording state and every other component state
unchanged. -/
theorem C10_controls_noop_without_recorders (s : AppState)
    (hnull : s.screenRecorderSet = false ∨ s.webcamRecorderSet = false) :
    pauseRecording s = s ∧ resumeRecording s = s ∧ stopRecording s = s := by
  have hb : (s.screenRecorderSet && s.webcamRecorderSet) = false := by
    rcases hnull with hn | hn <;> simp [hn]
  simp [pauseRecording, resumeRecording, stopRecording, hb]

/-- Witness for C10 at the initial state, whose recorder refs are null. -/
theorem C10_controls_noop_without_recorders_witness :
    pauseRecording initState = initState ∧
    resumeRecording initState = initState ∧
    stopRecording initState = initState :=
  C10_controls_noop_without_recorders initState (Or.inl rfl)
